import Mathlib

/-!
Verification of the `code-server-operator` entry point (`main.go`).

The file embeds the wiring performed by `main`: flag defaults, the bounded
request channel, reconciler registration, the probe ticker, the watcher
construction and launch, the signal-handler context, and the start of the
manager.  External calls that can fail (manager creation, controller setup,
health checks, manager start) are modelled by an environment recording each
call's outcome; `main` itself is embedded as a function from the parsed
flags and that environment to the trace of wiring events it performs and
its final outcome (exit with an error, a runtime panic from
`time.NewTicker`, or normal completion).

The watcher's probe loop lives in the `controllers` package, which is not
part of the sources; where a claim depends on it, the loop is modelled from
the specification (marked `Modelled from the spec:`).
-/

/-- Capacity of the reconciliation request channel (`REQUEST_CHAN_SIZE`). -/
def REQUEST_CHAN_SIZE : Nat := 10

/-- The `controllers.CodeServerOption` fields bound to flags in `main`. -/
structure CodeServerOption where
  domainName : String
  vsExporterImage : String
  probeInterval : Int
  maxProbeRetry : Int
  httpsSecretName : String
  lxdClientSecretName : String
  enableUserIngress : Bool
  maxConcurrency : Int
deriving Repr, DecidableEq

/-- The flag defaults declared in `main` for `CodeServerOption`. -/
def defaultCodeServerOption : CodeServerOption :=
  { domainName := "pool1.playground.osinfra.cn"
    vsExporterImage := "ghcr.io/artificial-aidan/active-exporter:latest"
    probeInterval := 20
    maxProbeRetry := 10
    httpsSecretName := "code-server-secret"
    lxdClientSecretName := "lxd-client-secret"
    enableUserIngress := false
    maxConcurrency := 10 }

/-- All flags parsed by `main`. -/
structure MainFlags where
  metricsAddr : String
  probeAddr : String
  enableLeaderElection : Bool
  csOption : CodeServerOption
deriving Repr, DecidableEq

/-- The flag defaults of `main`. -/
def defaultMainFlags : MainFlags :=
  { metricsAddr := ":8080"
    probeAddr := ":8081"
    enableLeaderElection := false
    csOption := defaultCodeServerOption }

/-- Outcomes of the fallible external calls `main` makes, in program order:
`ctrl.NewManager`, `SetupWithManager`, `AddHealthzCheck`, `AddReadyzCheck`,
`mgr.Start`.  `some e` means the call returned error `e`. -/
structure ExternalEnv where
  newManagerErr : Option String
  setupWithManagerErr : Option String
  addHealthzErr : Option String
  addReadyzErr : Option String
  managerStartErr : Option String
deriving Repr, DecidableEq

/-- The environment in which every external call succeeds. -/
def allSuccess : ExternalEnv :=
  { newManagerErr := none
    setupWithManagerErr := none
    addHealthzErr := none
    addReadyzErr := none
    managerStartErr := none }

/-- Wiring events performed by `main`, in the order the code performs them.
Channels, tickers and contexts are identified by allocation index (`main`
allocates one of each, index 0).  `newWatcher reqCh tickCh` records the two
conduits handed to `NewCodeServerWatcher`: the request channel it produces
into and the receive end `probeTicker.C` of ticker `tickCh`.
`goWatcherRun c` records `go codeServerWatcher.Run(stopContext.Done())`
with `stopContext` the signal-handler context `c`; `managerStart c` records
`mgr.Start(stopContext)` with the same context. -/
inductive MainEvent where
  | createManager (leaderElect : Bool)
  | logError (msg : String)
  | exitProcess (code : Nat)
  | makeChan (id : Nat) (capacity : Nat)
  | setupReconciler (reqCh : Nat) (concurrency : Int)
  | addHealthz
  | addReadyz
  | newTicker (id : Nat) (period : Int)
  | deferTickerStop (id : Nat)
  | newWatcher (reqCh : Nat) (tickCh : Nat)
  | setupSignalHandler (ctx : Nat)
  | goWatcherRun (stopCtx : Nat)
  | managerStart (ctx : Nat)
deriving Repr, DecidableEq

/-- How a run of `main` ends: `os.Exit code` after logging `err`, a runtime
panic, or normal completion. -/
inductive MainOutcome where
  | exited (code : Nat) (err : String)
  | panicked (msg : String)
  | completed
deriving Repr, DecidableEq

/-- Nanoseconds per second: the value of Go's `time.Second`. -/
def nsPerSecond : Int := 1000000000

/-- Two's-complement wrap-around of an integer to the signed 64-bit range,
the semantics of Go arithmetic on `int`/`time.Duration`. -/
def wrap64 (x : Int) : Int := (x + 2 ^ 63) % 2 ^ 64 - 2 ^ 63

/-- The duration `time.Duration(i) * time.Second` computed at line 135 of
`main.go`: the 64-bit product of the probe interval and `time.Second`. -/
def goDurationSeconds (i : Int) : Int := wrap64 (i * nsPerSecond)

/-- The message of the runtime panic raised by `time.NewTicker` when its
argument is not positive. -/
def tickerPanicMsg : String := "non-positive interval for NewTicker"

/-- Embedding of `func main` (after flag parsing): the sequence of wiring
events it performs and its outcome, as a function of the parsed flags and
the outcomes of the external calls.  Mirrors `main.go` lines 87-152:
manager creation, the request channel of capacity `REQUEST_CHAN_SIZE`,
reconciler setup with `csOption.MaxConcurrency`, the health and ready
checks, the probe ticker (panicking as `time.NewTicker` does on a
non-positive duration), the deferred ticker stop, the watcher construction
and launch, and the manager start; each failing call is logged and followed
by `os.Exit(1)`. -/
def runMain (fl : MainFlags) (env : ExternalEnv) : List MainEvent × MainOutcome :=
  let evs := [MainEvent.createManager fl.enableLeaderElection]
  match env.newManagerErr with
  | some e => (evs ++ [.logError "unable to start manager", .exitProcess 1], .exited 1 e)
  | none =>
  let evs := evs ++ [.makeChan 0 REQUEST_CHAN_SIZE,
                     .setupReconciler 0 fl.csOption.maxConcurrency]
  match env.setupWithManagerErr with
  | some e => (evs ++ [.logError "unable to create controller", .exitProcess 1], .exited 1 e)
  | none =>
  let evs := evs ++ [.addHealthz]
  match env.addHealthzErr with
  | some e => (evs ++ [.logError "unable to set up health check", .exitProcess 1], .exited 1 e)
  | none =>
  let evs := evs ++ [.addReadyz]
  match env.addReadyzErr with
  | some e => (evs ++ [.logError "unable to set up ready check", .exitProcess 1], .exited 1 e)
  | none =>
  let d := goDurationSeconds fl.csOption.probeInterval
  if d ≤ 0 then (evs, .panicked tickerPanicMsg)
  else
  let evs := evs ++ [.newTicker 0 d, .deferTickerStop 0, .newWatcher 0 0,
                     .setupSignalHandler 0, .goWatcherRun 0]
  match env.managerStartErr with
  | some e => (evs ++ [.managerStart 0, .logError "problem running manager", .exitProcess 1], .exited 1 e)
  | none => (evs ++ [.managerStart 0], .completed)

/-- The channels created in a trace, as (id, capacity) pairs. -/
def chanEventsOf (evs : List MainEvent) : List (Nat × Nat) :=
  evs.filterMap fun e => match e with | .makeChan i c => some (i, c) | _ => none

/-- The reconciler registrations in a trace, as (request channel id,
concurrency bound) pairs. -/
def reconcilerSetupsOf (evs : List MainEvent) : List (Nat × Int) :=
  evs.filterMap fun e => match e with | .setupReconciler r c => some (r, c) | _ => none

/-- The watcher constructions in a trace, as (request channel id, ticker
receive-channel id) pairs. -/
def watcherNewsOf (evs : List MainEvent) : List (Nat × Nat) :=
  evs.filterMap fun e => match e with | .newWatcher r t => some (r, t) | _ => none

/-- The tickers created in a trace, as (id, period in nanoseconds) pairs. -/
def tickersOf (evs : List MainEvent) : List (Nat × Int) :=
  evs.filterMap fun e => match e with | .newTicker i p => some (i, p) | _ => none

/-- The ticker ids whose `Stop` was deferred in a trace. -/
def deferredStopsOf (evs : List MainEvent) : List Nat :=
  evs.filterMap fun e => match e with | .deferTickerStop i => some i | _ => none

/-- The signal-handler contexts installed in a trace. -/
def signalHandlersOf (evs : List MainEvent) : List Nat :=
  evs.filterMap fun e => match e with | .setupSignalHandler c => some c | _ => none

/-- The contexts whose `Done()` channel was handed to a launched watcher. -/
def watcherRunsOf (evs : List MainEvent) : List Nat :=
  evs.filterMap fun e => match e with | .goWatcherRun c => some c | _ => none

/-- The contexts passed to `mgr.Start` in a trace. -/
def managerStartsOf (evs : List MainEvent) : List Nat :=
  evs.filterMap fun e => match e with | .managerStart c => some c | _ => none

/-- Whether an event is the start of the manager. -/
def isManagerStartEvent : MainEvent → Bool
  | .managerStart _ => true
  | _ => false

/-- Whether an event is the launch of the watcher goroutine. -/
def isGoWatcherRunEvent : MainEvent → Bool
  | .goWatcherRun _ => true
  | _ => false

/-- Claim C1: `main` creates exactly one channel for watcher-to-reconciler
requests, a bounded queue whose capacity is `REQUEST_CHAN_SIZE = 10`; no
channel of any other capacity is ever created.  The hypothesis only asks
that `main` gets past manager creation (the channel is made at line 111,
right after the manager-creation error check). -/
theorem requestChannel_capacity (fl : MainFlags) (env : ExternalEnv)
    (h : env.newManagerErr = none) :
    REQUEST_CHAN_SIZE = 10 ∧
    chanEventsOf (runMain fl env).1 = [(0, REQUEST_CHAN_SIZE)] := by
  obtain ⟨e1, e2, e3, e4, e5⟩ := env
  simp only at h
  subst h
  refine ⟨rfl, ?_⟩
  cases e2 <;> cases e3 <;> cases e4 <;> cases e5 <;>
    simp [runMain, chanEventsOf] <;> split <;> simp [chanEventsOf]

/-- Witness for C1 at the default flags with every external call
succeeding. -/
theorem requestChannel_capacity_witness :
    REQUEST_CHAN_SIZE = 10 ∧
    chanEventsOf (runMain defaultMainFlags allSuccess).1 = [(0, REQUEST_CHAN_SIZE)] :=
  requestChannel_capacity defaultMainFlags allSuccess rfl

/-- In the signed 64-bit range the wrap-around is the identity. -/
theorem wrap64_eq_of_bounds (x : Int) (h1 : -(2 ^ 63) ≤ x) (h2 : x < 2 ^ 63) :
    wrap64 x = x := by
  unfold wrap64
  omega

/-- For intervals whose product with `time.Second` fits in 64 bits, the
constructed duration is exactly the interval in seconds. -/
theorem goDurationSeconds_eq_of_bounds (i : Int)
    (h1 : -9000000000 ≤ i) (h2 : i ≤ 9000000000) :
    goDurationSeconds i = i * nsPerSecond := by
  unfold goDurationSeconds nsPerSecond wrap64
  omega

/-- Claim C3: the reconciler is registered with `SetupWithManager(mgr,
csOption.MaxConcurrency)`, so its worker-pool bound is exactly the
`max-concurrency` flag value, whose declared default is 10. -/
theorem maxConcurrency_wiring (fl : MainFlags) (env : ExternalEnv)
    (h : env.newManagerErr = none) :
    reconcilerSetupsOf (runMain fl env).1 = [(0, fl.csOption.maxConcurrency)] ∧
    defaultCodeServerOption.maxConcurrency = 10 := by
  obtain ⟨e1, e2, e3, e4, e5⟩ := env
  simp only at h
  subst h
  refine ⟨?_, rfl⟩
  cases e2 <;> cases e3 <;> cases e4 <;> cases e5 <;>
    simp [runMain, reconcilerSetupsOf] <;> split <;> simp [reconcilerSetupsOf]

/-- Witness for C3 at the default flags with every external call
succeeding. -/
theorem maxConcurrency_wiring_witness :
    reconcilerSetupsOf (runMain defaultMainFlags allSuccess).1
      = [(0, defaultMainFlags.csOption.maxConcurrency)] ∧
    defaultCodeServerOption.maxConcurrency = 10 :=
  maxConcurrency_wiring defaultMainFlags allSuccess rfl

/-- Claim C4: in every run that reaches the watcher setup, exactly one
channel is created, and the reconciler's `ReqCh` end and the watcher's
producer end are both that channel (id 0): within `main`'s wiring the
single channel is the only conduit connecting the watcher to the
reconciler. -/
theorem single_channel_wiring (fl : MainFlags) (env : ExternalEnv)
    (h1 : env.newManagerErr = none) (h2 : env.setupWithManagerErr = none)
    (h3 : env.addHealthzErr = none) (h4 : env.addReadyzErr = none)
    (hd : 0 < goDurationSeconds fl.csOption.probeInterval) :
    chanEventsOf (runMain fl env).1 = [(0, REQUEST_CHAN_SIZE)] ∧
    (reconcilerSetupsOf (runMain fl env).1).map Prod.fst = [0] ∧
    watcherNewsOf (runMain fl env).1 = [(0, 0)] := by
  obtain ⟨e1, e2, e3, e4, e5⟩ := env
  simp only at h1 h2 h3 h4
  subst h1; subst h2; subst h3; subst h4
  have hd' : ¬ goDurationSeconds fl.csOption.probeInterval ≤ 0 := by omega
  cases e5 <;>
    simp [runMain, hd', chanEventsOf, reconcilerSetupsOf, watcherNewsOf]

/-- Witness for C4 at the default flags with every external call
succeeding. -/
theorem single_channel_wiring_witness :
    chanEventsOf (runMain defaultMainFlags allSuccess).1 = [(0, REQUEST_CHAN_SIZE)] ∧
    (reconcilerSetupsOf (runMain defaultMainFlags allSuccess).1).map Prod.fst = [0] ∧
    watcherNewsOf (runMain defaultMainFlags allSuccess).1 = [(0, 0)] :=
  single_channel_wiring defaultMainFlags allSuccess rfl rfl rfl rfl (by decide)

/-- Claim C5: exactly one signal-handler context is installed (context 0),
the watcher's `Run` receives that context's `Done()` channel, and
`mgr.Start` receives that same context: one stop signal cancels both the
probe loop and the reconciliation workers. -/
theorem single_stop_signal (fl : MainFlags) (env : ExternalEnv)
    (h1 : env.newManagerErr = none) (h2 : env.setupWithManagerErr = none)
    (h3 : env.addHealthzErr = none) (h4 : env.addReadyzErr = none)
    (hd : 0 < goDurationSeconds fl.csOption.probeInterval) :
    signalHandlersOf (runMain fl env).1 = [0] ∧
    watcherRunsOf (runMain fl env).1 = [0] ∧
    managerStartsOf (runMain fl env).1 = [0] := by
  obtain ⟨e1, e2, e3, e4, e5⟩ := env
  simp only at h1 h2 h3 h4
  subst h1; subst h2; subst h3; subst h4
  have hd' : ¬ goDurationSeconds fl.csOption.probeInterval ≤ 0 := by omega
  cases e5 <;>
    simp [runMain, hd', signalHandlersOf, watcherRunsOf, managerStartsOf]

/-- Witness for C5 at the default flags with every external call
succeeding. -/
theorem single_stop_signal_witness :
    signalHandlersOf (runMain defaultMainFlags allSuccess).1 = [0] ∧
    watcherRunsOf (runMain defaultMainFlags allSuccess).1 = [0] ∧
    managerStartsOf (runMain defaultMainFlags allSuccess).1 = [0] :=
  single_stop_signal defaultMainFlags allSuccess rfl rfl rfl rfl (by decide)

/-- Claim C6: for every overflow-free probe interval, `main` constructs a
single ticker whose period is exactly the probe-interval flag value in
seconds (`ProbeInterval * time.Second` nanoseconds), and the watcher
receives exactly the receive channel of that ticker. -/
theorem ticker_period_wiring (fl : MainFlags) (env : ExternalEnv)
    (h1 : env.newManagerErr = none) (h2 : env.setupWithManagerErr = none)
    (h3 : env.addHealthzErr = none) (h4 : env.addReadyzErr = none)
    (hlo : 1 ≤ fl.csOption.probeInterval)
    (hhi : fl.csOption.probeInterval ≤ 9000000000) :
    tickersOf (runMain fl env).1 = [(0, fl.csOption.probeInterval * nsPerSecond)] ∧
    watcherNewsOf (runMain fl env).1 = [(0, 0)] := by
  obtain ⟨e1, e2, e3, e4, e5⟩ := env
  simp only at h1 h2 h3 h4
  subst h1; subst h2; subst h3; subst h4
  have heq : goDurationSeconds fl.csOption.probeInterval
      = fl.csOption.probeInterval * nsPerSecond :=
    goDurationSeconds_eq_of_bounds _ (by omega) hhi
  have hd2 : ¬ fl.csOption.probeInterval * nsPerSecond ≤ 0 := by
    unfold nsPerSecond; nlinarith
  cases e5 <;>
    simp [runMain, heq, hd2, tickersOf, watcherNewsOf]

/-- Witness for C6 at the default flags (probe interval 20) with every
external call succeeding. -/
theorem ticker_period_wiring_witness :
    tickersOf (runMain defaultMainFlags allSuccess).1
      = [(0, defaultMainFlags.csOption.probeInterval * nsPerSecond)] ∧
    watcherNewsOf (runMain defaultMainFlags allSuccess).1 = [(0, 0)] :=
  ticker_period_wiring defaultMainFlags allSuccess rfl rfl rfl rfl
    (by decide) (by decide)

/-- Claim C7: the probe timer is owned and released by `main`, not the
watcher: `main` creates the single ticker, immediately defers its `Stop`,
and the watcher construction receives only the ticker's receive channel
(id 0 of `newWatcher`'s second component), never the ticker handle, so the
watcher cannot stop or free the timer. -/
theorem ticker_owned_by_main (fl : MainFlags) (env : ExternalEnv)
    (h1 : env.newManagerErr = none) (h2 : env.setupWithManagerErr = none)
    (h3 : env.addHealthzErr = none) (h4 : env.addReadyzErr = none)
    (hd : 0 < goDurationSeconds fl.csOption.probeInterval) :
    tickersOf (runMain fl env).1
      = [(0, goDurationSeconds fl.csOption.probeInterval)] ∧
    deferredStopsOf (runMain fl env).1 = [0] ∧
    watcherNewsOf (runMain fl env).1 = [(0, 0)] := by
  obtain ⟨e1, e2, e3, e4, e5⟩ := env
  simp only at h1 h2 h3 h4
  subst h1; subst h2; subst h3; subst h4
  have hd' : ¬ goDurationSeconds fl.csOption.probeInterval ≤ 0 := by omega
  cases e5 <;>
    simp [runMain, hd', tickersOf, deferredStopsOf, watcherNewsOf]

/-- Witness for C7 at the default flags with every external call
succeeding. -/
theorem ticker_owned_by_main_witness :
    tickersOf (runMain defaultMainFlags allSuccess).1
      = [(0, goDurationSeconds defaultMainFlags.csOption.probeInterval)] ∧
    deferredStopsOf (runMain defaultMainFlags allSuccess).1 = [0] ∧
    watcherNewsOf (runMain defaultMainFlags allSuccess).1 = [(0, 0)] :=
  ticker_owned_by_main defaultMainFlags allSuccess rfl rfl rfl rfl (by decide)

/-- Claim C9: every startup failure is terminal with exit status 1.  Each
conjunct covers one fallible call: if it is the first to fail, `main` logs
and exits with status 1 carrying that call's error; and when every call
succeeds (and the ticker duration is positive), `main` runs to completion —
there is no degraded continuation path. -/
theorem startup_failures_exit1 (fl : MainFlags) (env : ExternalEnv) (e : String) :
    (env.newManagerErr = some e → (runMain fl env).2 = .exited 1 e) ∧
    (env.newManagerErr = none → env.setupWithManagerErr = some e →
      (runMain fl env).2 = .exited 1 e) ∧
    (env.newManagerErr = none → env.setupWithManagerErr = none →
      env.addHealthzErr = some e → (runMain fl env).2 = .exited 1 e) ∧
    (env.newManagerErr = none → env.setupWithManagerErr = none →
      env.addHealthzErr = none → env.addReadyzErr = some e →
      (runMain fl env).2 = .exited 1 e) ∧
    (env.newManagerErr = none → env.setupWithManagerErr = none →
      env.addHealthzErr = none → env.addReadyzErr = none →
      0 < goDurationSeconds fl.csOption.probeInterval →
      env.managerStartErr = some e → (runMain fl env).2 = .exited 1 e) ∧
    (env.newManagerErr = none → env.setupWithManagerErr = none →
      env.addHealthzErr = none → env.addReadyzErr = none →
      0 < goDurationSeconds fl.csOption.probeInterval →
      env.managerStartErr = none → (runMain fl env).2 = .completed) := by
  refine ⟨fun h1 => ?_, fun h1 h2 => ?_, fun h1 h2 h3 => ?_, fun h1 h2 h3 h4 => ?_,
          fun h1 h2 h3 h4 hd h5 => ?_, fun h1 h2 h3 h4 hd h5 => ?_⟩
  · simp [runMain, h1]
  · simp [runMain, h1, h2]
  · simp [runMain, h1, h2, h3]
  · simp [runMain, h1, h2, h3, h4]
  · have hd' : ¬ goDurationSeconds fl.csOption.probeInterval ≤ 0 := by omega
    simp [runMain, h1, h2, h3, h4, hd', h5]
  · have hd' : ¬ goDurationSeconds fl.csOption.probeInterval ≤ 0 := by omega
    simp [runMain, h1, h2, h3, h4, hd', h5]

/-- Witness for C9: concrete runs exercising the first and the last failing
call, plus the all-success completion. -/
theorem startup_failures_exit1_witness :
    (runMain defaultMainFlags
        { allSuccess with newManagerErr := some "boom" }).2 = .exited 1 "boom" ∧
    (runMain defaultMainFlags
        { allSuccess with managerStartErr := some "boom" }).2 = .exited 1 "boom" ∧
    (runMain defaultMainFlags allSuccess).2 = .completed :=
  ⟨(startup_failures_exit1 defaultMainFlags
      { allSuccess with newManagerErr := some "boom" } "boom").1 rfl,
   (startup_failures_exit1 defaultMainFlags
      { allSuccess with managerStartErr := some "boom" } "boom").2.2.2.2.1
      rfl rfl rfl rfl (by decide) rfl,
   (startup_failures_exit1 defaultMainFlags allSuccess "anything").2.2.2.2.2
      rfl rfl rfl rfl (by decide) rfl⟩

/-- Claim C10: the watcher goroutine is launched strictly before the
manager is started, in every run that reaches the watcher setup and for
every value of the `leader-elect` flag (the statement is quantified over
all flags, so the launch is not gated on leader election). -/
theorem watcher_launched_before_manager (fl : MainFlags) (env : ExternalEnv)
    (h1 : env.newManagerErr = none) (h2 : env.setupWithManagerErr = none)
    (h3 : env.addHealthzErr = none) (h4 : env.addReadyzErr = none)
    (hd : 0 < goDurationSeconds fl.csOption.probeInterval) :
    (((runMain fl env).1.takeWhile
        (fun e => !(isManagerStartEvent e))).any isGoWatcherRunEvent) = true := by
  obtain ⟨e1, e2, e3, e4, e5⟩ := env
  simp only at h1 h2 h3 h4
  subst h1; subst h2; subst h3; subst h4
  have hd' : ¬ goDurationSeconds fl.csOption.probeInterval ≤ 0 := by omega
  cases e5 <;>
    simp [runMain, hd', List.takeWhile, isManagerStartEvent, isGoWatcherRunEvent]

/-- Witness for C10, at both settings of the `leader-elect` flag with every
external call succeeding. -/
theorem watcher_launched_before_manager_witness :
    ((((runMain { defaultMainFlags with enableLeaderElection := true }
          allSuccess).1.takeWhile
        (fun e => !(isManagerStartEvent e))).any isGoWatcherRunEvent) = true) ∧
    ((((runMain { defaultMainFlags with enableLeaderElection := false }
          allSuccess).1.takeWhile
        (fun e => !(isManagerStartEvent e))).any isGoWatcherRunEvent) = true) :=
  ⟨watcher_launched_before_manager
      { defaultMainFlags with enableLeaderElection := true } allSuccess
      rfl rfl rfl rfl (by decide),
   watcher_launched_before_manager
      { defaultMainFlags with enableLeaderElection := false } allSuccess
      rfl rfl rfl rfl (by decide)⟩

/-- Counterexample for claim C8: the flag value
`-probe-interval=-36028797018963967` (that is, `-(2^55 - 1)`) is ≤ 0, yet
`time.Duration(i) * time.Second` wraps around 64 bits to exactly `10^9`
nanoseconds (one second), so `time.NewTicker` does not panic and the
process reaches watcher and manager startup with a negative
`ProbeInterval`. -/
theorem tickerPanic_counterexample :
    (-36028797018963967 : Int) ≤ 0 ∧
    goDurationSeconds (-36028797018963967) = 1000000000 ∧
    (runMain
        { defaultMainFlags with
            csOption := { defaultCodeServerOption with
                            probeInterval := -36028797018963967 } }
        allSuccess).2 = .completed := by
  refine ⟨by decide, by decide, ?_⟩
  have hd : ¬ goDurationSeconds (-36028797018963967) ≤ 0 := by decide
  simp [runMain, allSuccess, defaultMainFlags, defaultCodeServerOption, hd]

/-- Claim C8 (amended): in a run that reaches the ticker construction,
`time.NewTicker` panics exactly when the 64-bit wrapped duration
`ProbeInterval * time.Second` is ≤ 0 — so the process reaches the
watcher/manager startup iff that wrapped duration is positive; and for
every `probe-interval ≤ 0` whose product with `10^9` does not overflow
int64 (in particular any value in `[-9*10^9, 0]`), ticker construction
does panic. -/
theorem tickerPanic_amended (fl : MainFlags) (env : ExternalEnv)
    (h1 : env.newManagerErr = none) (h2 : env.setupWithManagerErr = none)
    (h3 : env.addHealthzErr = none) (h4 : env.addReadyzErr = none) :
    ((runMain fl env).2 = .panicked tickerPanicMsg ↔
      goDurationSeconds fl.csOption.probeInterval ≤ 0) ∧
    (fl.csOption.probeInterval ≤ 0 → -9000000000 ≤ fl.csOption.probeInterval →
      (runMain fl env).2 = .panicked tickerPanicMsg) := by
  obtain ⟨e1, e2, e3, e4, e5⟩ := env
  simp only at h1 h2 h3 h4
  subst h1; subst h2; subst h3; subst h4
  have hmain : ((runMain fl ⟨none, none, none, none, e5⟩).2 = .panicked tickerPanicMsg ↔
      goDurationSeconds fl.csOption.probeInterval ≤ 0) := by
    constructor
    · intro hp
      by_contra hgt
      cases e5 <;> simp [runMain, hgt] at hp
    · intro hle
      cases e5 <;> simp [runMain, hle]
  refine ⟨hmain, fun hle hbound => ?_⟩
  have : goDurationSeconds fl.csOption.probeInterval ≤ 0 := by
    have := goDurationSeconds_eq_of_bounds fl.csOption.probeInterval hbound (by omega)
    rw [this]
    unfold nsPerSecond
    nlinarith
  exact hmain.mpr this

/-- Witness for the amended C8, at `probe-interval = 0` with all setup
calls succeeding: the run panics in `time.NewTicker`. -/
theorem tickerPanic_amended_witness :
    (runMain
        { defaultMainFlags with
            csOption := { defaultCodeServerOption with probeInterval := 0 } }
        allSuccess).2 = .panicked tickerPanicMsg :=
  (tickerPanic_amended
      { defaultMainFlags with
          csOption := { defaultCodeServerOption with probeInterval := 0 } }
      allSuccess rfl rfl rfl rfl).2 (by decide) (by decide)

/-- Reason tags of a reconciliation request (`ReconcileRequest` in the
specification's data model). -/
inductive RequestReason where
  | SpecChanged
  | ProbeFailureThresholdReached
  | ProbeRecovered
  | ResourceDeleted
deriving Repr, DecidableEq

/-- A `controllers.CodeServerRequest` travelling over the request channel:
target resource key, reason tag, and the failure count carried for
probe-related reasons. -/
structure CodeServerRequest where
  resourceKey : String
  reason : RequestReason
  failureCount : Nat
deriving Repr, DecidableEq

/-- A bounded Go channel: its capacity and the queued items. -/
structure BoundedChan (α : Type) where
  capacity : Nat
  buffer : List α
deriving Repr, DecidableEq

/-- Modelled from the spec: the non-blocking send (Go `select` with a
`default` branch) used by the Watcher, whose implementation lives in the
`controllers` package outside the given sources.  If the buffer has room
the item is enqueued and the send reports success; if the channel is full
the item is NOT enqueued and the send reports failure immediately — the
function is total, so the caller is never blocked. -/
def trySend {α : Type} (ch : BoundedChan α) (x : α) : BoundedChan α × Bool :=
  if ch.buffer.length < ch.capacity then ({ ch with buffer := ch.buffer ++ [x] }, true)
  else (ch, false)

/-- The log line recorded when a request is dropped on a full channel. -/
def dropLogMsg : String := "request channel is full, dropping request"

/-- Outcome of one liveness probe of one instance. -/
inductive ProbeResult where
  | success
  | failure
deriving Repr, DecidableEq

/-- The Watcher's working state during a probe pass: its per-instance
consecutive-failure counters, the request channel it produces into, and
the log it has written. -/
structure WatcherAcc where
  counters : List (String × Nat)
  chan : BoundedChan CodeServerRequest
  log : List String
deriving Repr, DecidableEq

/-- The consecutive-failure counter recorded for key `k` (0 if absent). -/
def getCount (cs : List (String × Nat)) (k : String) : Nat :=
  match cs.find? (fun p => p.fst == k) with
  | some p => p.snd
  | none => 0

/-- Set the consecutive-failure counter for key `k` to `v`. -/
def setCount (cs : List (String × Nat)) (k : String) (v : Nat) : List (String × Nat) :=
  match cs with
  | [] => [(k, v)]
  | p :: rest => if p.fst == k then (k, v) :: rest else p :: setCount rest k v

/-- Modelled from the spec: the Watcher pushes a request onto the channel
with the non-blocking send; on failure the request is dropped and a log
line is written, and nothing else changes. -/
def watcherEmit (acc : WatcherAcc) (r : CodeServerRequest) : WatcherAcc :=
  match trySend acc.chan r with
  | (ch2, true) => { acc with chan := ch2 }
  | (ch2, false) => { acc with chan := ch2, log := acc.log ++ [dropLogMsg] }

/-- The pure counter transition of one probe outcome: a success resets a
nonzero counter to 0; a failure increments the counter by exactly 1. -/
def counterStep (m : Nat) (cs : List (String × Nat)) (e : String × ProbeResult) :
    List (String × Nat) :=
  match e.snd with
  | .success => if getCount cs e.fst ≠ 0 then setCount cs e.fst 0 else cs
  | .failure => setCount cs e.fst (getCount cs e.fst + 1)

/-- How many requests the Watcher attempts to emit for one probe outcome
(1 on a recovery or on the failure that reaches the threshold exactly,
0 otherwise). -/
def stepEmits (m : Nat) (cs : List (String × Nat)) (e : String × ProbeResult) : Nat :=
  match e.snd with
  | .success => if getCount cs e.fst ≠ 0 then 1 else 0
  | .failure => if getCount cs e.fst + 1 = m then 1 else 0

/-- Modelled from the spec (§4.2): the Watcher's handling of one probed
instance.  On success, if the counter was nonzero it emits `ProbeRecovered`
and resets the counter to 0; on failure it increments the counter and, when
the counter reaches `MaxProbeRetry` (`m`) exactly on this failure, emits
`ProbeFailureThresholdReached` once. -/
def watcherStep (m : Nat) (acc : WatcherAcc) (e : String × ProbeResult) : WatcherAcc :=
  match e.snd with
  | .success =>
    if getCount acc.counters e.fst ≠ 0 then
      let acc2 := watcherEmit acc ⟨e.fst, .ProbeRecovered, 0⟩
      { acc2 with counters := setCount acc2.counters e.fst 0 }
    else acc
  | .failure =>
    let c := getCount acc.counters e.fst + 1
    let acc2 := { acc with counters := setCount acc.counters e.fst c }
    if c = m then watcherEmit acc2 ⟨e.fst, .ProbeFailureThresholdReached, c⟩ else acc2

/-- Modelled from the spec: one full probe pass of the Watcher over the
listed instances' probe outcomes. -/
def watcherPass (m : Nat) (acc : WatcherAcc) (probes : List (String × ProbeResult)) :
    WatcherAcc :=
  probes.foldl (watcherStep m) acc

/-- The counters after a pass, computed by the pure counter machine alone
(no channel involved). -/
def countersAfter (m : Nat) :
    List (String × Nat) → List (String × ProbeResult) → List (String × Nat)
  | cs, [] => cs
  | cs, e :: rest => countersAfter m (counterStep m cs e) rest

/-- The total number of requests the Watcher attempts to emit during a
pass, computed by the pure counter machine alone. -/
def emitTotal (m : Nat) : List (String × Nat) → List (String × ProbeResult) → Nat
  | _, [] => 0
  | cs, e :: rest => stepEmits m cs e + emitTotal m (counterStep m cs e) rest

/-- On a full channel, one Watcher step leaves the channel untouched,
advances the counters exactly as the pure counter machine does, and logs
one drop line per attempted emission. -/
theorem watcherStep_full_chan (m : Nat) (acc : WatcherAcc) (e : String × ProbeResult)
    (h : acc.chan.capacity ≤ acc.chan.buffer.length) :
    watcherStep m acc e =
      { counters := counterStep m acc.counters e
        chan := acc.chan
        log := acc.log ++ List.replicate (stepEmits m acc.counters e) dropLogMsg } := by
  obtain ⟨cs, ch, lg⟩ := acc
  obtain ⟨k, res⟩ := e
  simp only at h
  have hnot : ¬ ch.buffer.length < ch.capacity := by omega
  cases res
  · by_cases hc : getCount cs k ≠ 0 <;>
      simp [watcherStep, counterStep, stepEmits, watcherEmit, trySend, hc, hnot]
  · by_cases hc : getCount cs k + 1 = m <;>
      simp [watcherStep, counterStep, stepEmits, watcherEmit, trySend, hc, hnot]

set_option maxRecDepth 4000 in
/-- Claim C2: during any probe pass in which the request channel is full
(its 10 slots of capacity `REQUEST_CHAN_SIZE` all occupied), every emitted
request is dropped: the channel is left exactly as it was, one drop line is
logged per attempted emission, and the Watcher's failure counters advance
exactly as the pure (channel-free) counter machine prescribes — the drop
changes nothing else.  The send is the total function `trySend`, so the
probe loop is never blocked on it. -/
theorem watcher_drop_on_full (m : Nat) (acc : WatcherAcc)
    (probes : List (String × ProbeResult))
    (hcap : acc.chan.capacity = REQUEST_CHAN_SIZE)
    (hfull : acc.chan.buffer.length = REQUEST_CHAN_SIZE) :
    (watcherPass m acc probes).chan = acc.chan ∧
    (watcherPass m acc probes).counters = countersAfter m acc.counters probes ∧
    (watcherPass m acc probes).log =
      acc.log ++ List.replicate (emitTotal m acc.counters probes) dropLogMsg := by
  induction probes generalizing acc with
  | nil => simp [watcherPass, countersAfter, emitTotal]
  | cons e rest ih =>
    have h : acc.chan.capacity ≤ acc.chan.buffer.length := by omega
    have hstep := watcherStep_full_chan m acc e h
    have hpass : watcherPass m acc (e :: rest) = watcherPass m (watcherStep m acc e) rest :=
      rfl
    obtain ⟨ih1, ih2, ih3⟩ := ih (watcherStep m acc e)
      (by rw [hstep]; exact hcap) (by rw [hstep]; exact hfull)
    refine ⟨?_, ?_, ?_⟩
    · rw [hpass, ih1, hstep]
    · rw [hpass, ih2, hstep]
      simp [countersAfter]
    · rw [hpass, ih3, hstep]
      show (acc.log ++ List.replicate (stepEmits m acc.counters e) dropLogMsg) ++
          List.replicate (emitTotal m (counterStep m acc.counters e) rest) dropLogMsg =
        acc.log ++ List.replicate (emitTotal m acc.counters (e :: rest)) dropLogMsg
      rw [List.append_assoc, ← List.replicate_add]
      rfl

/-- A request channel of capacity `REQUEST_CHAN_SIZE` with all 10 slots
occupied. -/
def fullChanExample : BoundedChan CodeServerRequest :=
  { capacity := REQUEST_CHAN_SIZE
    buffer := List.replicate REQUEST_CHAN_SIZE ⟨"existing", .SpecChanged, 0⟩ }

/-- A Watcher state probing against the full channel, with instance
`alice` one failure short of the threshold. -/
def watcherAccExample : WatcherAcc :=
  { counters := [("alice", 9)]
    chan := fullChanExample
    log := [] }

/-- Witness for C2: with the channel full and `alice`'s 10th consecutive
failure arriving (threshold 10), the emitted threshold request is dropped,
the channel and everything but the counters and the drop log are
unchanged. -/
theorem watcher_drop_on_full_witness :
    (watcherPass 10 watcherAccExample [("alice", ProbeResult.failure)]).chan
      = watcherAccExample.chan ∧
    (watcherPass 10 watcherAccExample [("alice", ProbeResult.failure)]).counters
      = countersAfter 10 watcherAccExample.counters [("alice", ProbeResult.failure)] ∧
    (watcherPass 10 watcherAccExample [("alice", ProbeResult.failure)]).log
      = watcherAccExample.log ++
        List.replicate
          (emitTotal 10 watcherAccExample.counters [("alice", ProbeResult.failure)])
          dropLogMsg :=
  watcher_drop_on_full 10 watcherAccExample [("alice", ProbeResult.failure)] rfl rfl
